import Mathlib

/-!
Verification development for the HackPrix offline-payment demo
(transaction relay protocol: codec, event bus, expiry supervisor,
verification state machine, sync policy). The embedding follows
`src/utils/paymentEvents.ts`, `src/components/QRGenerator.tsx` and
`src/components/QRScanner.tsx`; collaborators that live outside those
files (crypto, storage, network, blockchain sync) are modelled from the
specification and marked as such.
-/

namespace HackPrix

/-! ## Data model and codec (crypto modelled from the spec) -/

/-- Modelled from the spec: the canonical field set covered by the
signature (spec §3 and glossary) — identifier, amount, sender, recipient,
timestamp, description; status and the signature itself are excluded.
Amounts are modelled as integers. -/
structure SigFields where
  id : String
  amount : Int
  sender : String
  recipient : String
  timestamp : Nat
  description : String
deriving DecidableEq, Repr

/-- Modelled from the spec: a signature value. `src/utils/crypto.ts` is not
part of the provided sources; spec §4.1 describes `sign` as a deterministic
function of the canonical field set and the private key, so a well-formed
signature is modelled as that pair, and any other string the verifier may
be handed is a malformed signature. -/
inductive Sig where
  | mk (fields : SigFields) (key : String)
  | malformed (raw : String)
deriving DecidableEq, Repr

/-- Modelled from the spec: the public key `pub(k)` derived from a private
key `k`; an opaque injective derivation. -/
structure PubKey where
  key : String
deriving DecidableEq, Repr

/-- A transaction as carried in the QR payload (`src/types`): identifier,
amount, sender, recipient, creation timestamp, description, status and an
optional signature attached after signing. -/
structure Transaction where
  id : String
  amount : Int
  sender : String
  recipient : String
  timestamp : Nat
  description : String
  status : String
  signature : Option Sig
deriving DecidableEq, Repr

/-- The canonical field set of a transaction: the exact subset of fields
bound by the signature. -/
def canonical (t : Transaction) : SigFields :=
  ⟨t.id, t.amount, t.sender, t.recipient, t.timestamp, t.description⟩

/-- Modelled from the spec: `pub(k)` (spec §4.1). -/
def pubOf (privateKey : String) : PubKey := ⟨privateKey⟩

/-- Modelled from the spec: `sign(transaction, privateKey)` — deterministic
in the canonical field set and the key, with no embedded randomness
(spec §4.1). Called `signTransaction` in `src/utils/crypto.ts`
(see `QRGenerator.tsx` line 221). -/
def signTransaction (t : Transaction) (privateKey : String) : Sig :=
  Sig.mk (canonical t) privateKey

/-- Modelled from the spec: `verify(transaction, signature, publicKey)` —
fails closed, returning `false` (it is a total Boolean function, so it
never throws) on a malformed signature, a mismatched key, or any canonical
field differing from what was signed (spec §4.1). Called
`verifySignature` in `src/utils/crypto.ts` (see `QRScanner.tsx`
lines 173-177). -/
def verifySignature (t : Transaction) (sig : Sig) (publicKey : PubKey) : Bool :=
  match sig with
  | Sig.malformed _ => false
  | Sig.mk fields key => decide (fields = canonical t ∧ pubOf key = publicKey)

/-! ## Event bus (`src/utils/paymentEvents.ts`) -/

/-- Handlers are identified by an id; their behaviour (which may raise) is
supplied by an environment table, mirroring arbitrary JS callbacks. -/
abbrev HandlerId := Nat

/-- The payload passed to `emit` (`data`): the payment-event record built by
`emitPaymentSent` / `emitPaymentReceived` / `emitQRExpired`; `transactionId`
is optional because `emit` itself accepts any `data`. -/
structure EventData where
  transactionId : Option String
  amount : Int
  sender : String
  recipient : String
  timestamp : Nat
deriving DecidableEq, Repr

/-- Behaviour table for handler callbacks: a handler applied to the event
either returns or raises (an `Except.error` models a thrown exception). -/
abbrev Handlers := HandlerId → EventData → Except String Unit

/-- The `eventListeners` registry: one ordered, duplicate-free listener set
per event type (a JS `Map<string, Set<callback>>` iterates its sets in
insertion order). -/
abbrev Registry := List (String × List HandlerId)

/-- Listener list registered for a type (empty when the type is absent). -/
def listenersFor (reg : Registry) (eventType : String) : List HandlerId :=
  (reg.lookup eventType).getD []

/-- JS `Set.add`: appends at the end unless already present. -/
def setAdd (l : List HandlerId) (h : HandlerId) : List HandlerId :=
  if h ∈ l then l else l ++ [h]

/-- `subscribe(eventType, callback)` registry update (lines 16-26):
creates the set on demand and adds the callback. -/
def subscribeBus (reg : Registry) (eventType : String) (h : HandlerId) : Registry :=
  match reg.lookup eventType with
  | none => (eventType, [h]) :: reg
  | some _ => reg.map fun p => if p.1 = eventType then (p.1, setAdd p.2 h) else p

/-- The unsubscribe closure returned by `subscribe`: deletes that callback
from the set; deleting an absent element is a no-op. -/
def unsubscribeBus (reg : Registry) (eventType : String) (h : HandlerId) : Registry :=
  reg.map fun p => if p.1 = eventType then (p.1, p.2.erase h) else p

/-- The JS truthiness of `data.transactionId` in
`data.transactionId || Date.now()`: `undefined` and the empty string are
falsy, so both fall back to the current timestamp. -/
def storageKey (eventType : String) (tid : Option String) (now : Nat) : String :=
  "payment_event_" ++ eventType ++ "_" ++
    (match tid with
     | some t => if t = "" then toString now else t
     | none => toString now)

/-- A removal scheduled by `setTimeout` in `emit` (lines 52-54). The key is
NOT captured: the closure re-evaluates
`payment_event_(type)_(data.transactionId || Date.now())` when it fires, so
the fallback timestamp is re-read at fire time. -/
structure PendingRemoval where
  fireTime : Nat
  eventType : String
  transactionId : Option String
deriving DecidableEq, Repr

/-- The world an `emit` call touches: the singleton registry, the DOM
listeners on `window` and `document` per event type, `localStorage`, and
the scheduled removals. -/
structure World where
  registry : Registry
  winListeners : List (String × List HandlerId)
  docListeners : List (String × List HandlerId)
  store : List (String × String)
  pending : List PendingRemoval
deriving Repr

/-- `localStorage.setItem`: replace or append. -/
def setItem (store : List (String × String)) (k v : String) : List (String × String) :=
  if (store.lookup k).isSome then
    store.map fun p => if p.1 = k then (k, v) else p
  else store ++ [(k, v)]

/-- `localStorage.removeItem`. -/
def removeItem (store : List (String × String)) (k : String) : List (String × String) :=
  store.filter fun p => p.1 ≠ k

/-- The `listeners.forEach` loop of `emit` (lines 31-40): each callback is
invoked inside its own try/catch, a raising callback is logged and the loop
continues. Returns the invocation results in order and the error log. -/
def runHandlers (handlers : Handlers) (hs : List HandlerId) (eventType : String)
    (data : EventData) : List (HandlerId × Except String Unit) × List String :=
  match hs with
  | [] => ([], [])
  | h :: rest =>
    let r := handlers h data
    let rec_ := runHandlers handlers rest eventType data
    match r with
    | Except.ok _ => ((h, r) :: rec_.1, rec_.2)
    | Except.error _ =>
      ((h, r) :: rec_.1, ("Error in event listener for " ++ eventType) :: rec_.2)

/-- The serialized `eventData` record written to `localStorage`
(lines 45-50): `{ type, data, timestamp: Date.now() }`. -/
def serializeEvent (eventType : String) (data : EventData) (now : Nat) : String :=
  eventType ++ "|" ++ toString (repr data) ++ "|" ++ toString now

/-- Whether an invocation outcome was a raise. -/
def isErr (r : Except String Unit) : Bool :=
  match r with
  | Except.ok _ => false
  | Except.error _ => true

/-- `PaymentEventManager.emit(eventType, data)` (lines 28-55): synchronous
fan-out to the registered listeners (each isolated by try/catch), then a
`CustomEvent` dispatched on `window` (reaching the `window` listeners for
that type, not the `document` ones), then a durable record written under
`storageKey`, with a removal scheduled 30000 ms later. Returns the new
world, the handler invocations in order, and the `console.error` log of
caught listener failures. -/
def emit (handlers : Handlers) (w : World) (eventType : String) (data : EventData)
    (now : Nat) : World × List (HandlerId × Except String Unit) × List String :=
  let local_ := runHandlers handlers (listenersFor w.registry eventType) eventType data
  let dom := runHandlers handlers (listenersFor w.winListeners eventType) eventType data
  let key := storageKey eventType data.transactionId now
  let store1 := setItem w.store key (serializeEvent eventType data now)
  let w1 : World :=
    { w with
      store := store1
      pending := w.pending ++ [⟨now + 30000, eventType, data.transactionId⟩] }
  (w1, local_.1 ++ dom.1, local_.2)

/-- Firing one scheduled removal: the key is recomputed at fire time, so a
missing (or empty) `transactionId` falls back to `Date.now()` evaluated
30 seconds after the record was written. -/
def runRemoval (store : List (String × String)) (p : PendingRemoval) :
    List (String × String) :=
  removeItem store (storageKey p.eventType p.transactionId p.fireTime)

/-! ## Expiry supervisor (`src/components/QRGenerator.tsx`) -/

/-- The generator state relevant to the countdown/completion race:
`qrData` (the armed payload's transaction), `timeLeft`, `isExpired` and
`paymentReceived`. -/
structure GenState where
  qrData : Option Transaction
  timeLeft : Nat
  isExpired : Bool
  paymentReceived : Bool
deriving DecidableEq, Repr

/-- The guard of the timer `useEffect` (line 142): the interval is live only
while a payload is armed, not expired and not paid. -/
def timerLive (s : GenState) : Bool :=
  s.qrData.isSome && !s.isExpired && !s.paymentReceived

/-- One interval tick (lines 145-164): when live, decrement `timeLeft`;
at `timeLeft <= 1` set `isExpired` and emit a `qrExpired` event for the
armed transaction. Returns the new state and the kinds of events emitted. -/
def tick (s : GenState) : GenState × List String :=
  if timerLive s then
    if s.timeLeft ≤ 1 then
      ({ s with timeLeft := 0, isExpired := true }, ["qrExpired"])
    else
      ({ s with timeLeft := s.timeLeft - 1 }, [])
  else (s, [])

/-- Iterated ticks, discarding the emitted events. -/
def tickN : Nat → GenState → GenState
  | 0, s => s
  | n + 1, s => tickN n (tick s).1

/-- `handlePaymentReceived` (lines 48-100): when the event's transaction id
matches the armed payload, the interval is cleared, `paymentReceived` is
set and `isExpired` is forced back to `false`; there is no check that the
payload has not already expired. A non-matching event is a no-op. -/
def handlePaymentReceivedG (s : GenState) (tid : String) : GenState :=
  match s.qrData with
  | some tx =>
    if tid = tx.id then { s with paymentReceived := true, isExpired := false }
    else s
  | none => s

/-- `handleGenerate` state reset (lines 201-233): a fresh payload is armed
with a 30-second window, cleared flags. -/
def arm (tx : Transaction) : GenState :=
  ⟨some tx, 30, false, false⟩

/-! ## Verification pipeline (`src/components/QRScanner.tsx`) -/

/-- `processingStatus` values (line 19). -/
inductive PStatus where
  | idle | verifying | storing | syncing | complete | error | passwordRequired
deriving DecidableEq, Repr

/-- The decoded QR payload (`QRData` in `src/types`): transaction plus the
signer's public key. -/
structure QRData where
  transaction : Transaction
  publicKey : PubKey
deriving DecidableEq, Repr

/-- Modelled from the spec: a credit-ledger entry produced by
`updateCredits` (`src/hooks/useCredits` is not part of the provided
sources): amount credited against a transaction id (spec §3). -/
structure LedgerEntry where
  transactionId : String
  amount : Int
deriving DecidableEq, Repr

/-- Modelled from the spec: the durable local store the commit step writes —
transaction records (`saveTransaction`) and the credit ledger
(`updateCredits`), spec §6 durable-storage collaborator. -/
structure Store where
  transactions : List Transaction
  ledger : List LedgerEntry
deriving DecidableEq, Repr

/-- Behaviour of one `syncTransactionToBlockchain` call: the promise may
reject (throw), resolve reporting failure, or resolve reporting success;
the scanner ignores the resolved value. -/
inductive SyncBehavior where
  | throws | reportsFailure | succeeds
deriving DecidableEq, Repr

/-- Behaviour of the external collaborators for one pipeline run:
whether `saveTransaction` and `updateCredits` succeed or throw, the
network snapshot read by `getNetworkState`, and the sync outcome. -/
structure ScanEnv where
  saveOk : Bool
  creditsOk : Bool
  isOnline : Bool
  sync : SyncBehavior
deriving DecidableEq, Repr

/-- Modelled from the spec: `saveTransaction` persists the transaction
record (`src/utils/storage` is not part of the provided sources); a
throwing call writes nothing. -/
def saveTransactionM (env : ScanEnv) (st : Store) (t : Transaction) :
    Except String Store :=
  if env.saveOk then Except.ok { st with transactions := st.transactions ++ [t] }
  else Except.error "save failed"

/-- Modelled from the spec: `updateCredits` appends one ledger entry
crediting the transaction's amount (`src/hooks/useCredits` is not part of
the provided sources); a throwing call writes nothing. -/
def updateCreditsM (env : ScanEnv) (st : Store) (t : Transaction) :
    Except String Store :=
  if env.creditsOk then
    Except.ok { st with ledger := st.ledger ++ [⟨t.id, t.amount⟩] }
  else Except.error "credits failed"

/-- The catch-all message set by the `catch` of `processTransaction`
(line 213). -/
def genericErrorMsg : String := "An error occurred while processing the transaction."

/-- Result of one `processTransaction` run: the final `processingStatus`
and `errorMessage`, the store as left behind, whether
`syncTransactionToBlockchain` was invoked, and the trace of statuses set. -/
structure PipelineResult where
  status : PStatus
  errorMessage : Option String
  store : Store
  syncInvoked : Bool
  trace : List PStatus
deriving DecidableEq, Repr

/-- `processTransaction` (lines 163-221): verify the signature (the stored
signature, or a malformed empty one when absent, line 175); on failure set
`error` with the tamper message. Then `saveTransaction`, then
`updateCredits` — each inside the surrounding try, so a throw lands in the
catch with the generic message, retaining whatever was already written.
Then read `getNetworkState`; when online, invoke the blockchain sync
(awaited inside the same try: a rejection lands in the catch); finally set
`complete`. -/
def processTransaction (env : ScanEnv) (store : Store) (data : QRData) :
    PipelineResult :=
  let sig := data.transaction.signature.getD (Sig.malformed "")
  let isValid := verifySignature data.transaction sig data.publicKey
  if !isValid then
    ⟨PStatus.error, some "Invalid signature. Transaction may be tampered with.",
      store, false, [PStatus.verifying, PStatus.error]⟩
  else
    match saveTransactionM env store data.transaction with
    | Except.error _ =>
      ⟨PStatus.error, some genericErrorMsg, store, false,
        [PStatus.verifying, PStatus.storing, PStatus.error]⟩
    | Except.ok store1 =>
      match updateCreditsM env store1 data.transaction with
      | Except.error _ =>
        ⟨PStatus.error, some genericErrorMsg, store1, false,
          [PStatus.verifying, PStatus.storing, PStatus.error]⟩
      | Except.ok store2 =>
        if env.isOnline then
          match env.sync with
          | SyncBehavior.throws =>
            ⟨PStatus.error, some genericErrorMsg, store2, true,
              [PStatus.verifying, PStatus.storing, PStatus.syncing, PStatus.error]⟩
          | _ =>
            ⟨PStatus.complete, none, store2, true,
              [PStatus.verifying, PStatus.storing, PStatus.syncing, PStatus.complete]⟩
        else
          ⟨PStatus.complete, none, store2, false,
            [PStatus.verifying, PStatus.storing, PStatus.complete]⟩

/-- Scanner component state relevant to the credential gate. -/
structure ScannerState where
  scannedData : Option QRData
  password : String
  processingStatus : PStatus
  errorMessage : Option String
  store : Store
deriving Repr

/-- `handlePasswordSubmit` (lines 146-161): the entered password is
compared against the literal `"2239"`; on a match the status becomes
`verifying` and, when a decoded payload is held, the pipeline runs on it;
on a mismatch the status becomes `error` with the invalid-password message.
The held `scannedData` is not cleared on either path. -/
def handlePasswordSubmit (env : ScanEnv) (s : ScannerState) : ScannerState :=
  if s.password = "2239" then
    match s.scannedData with
    | some d =>
      let r := processTransaction env s.store d
      { s with processingStatus := r.status, errorMessage := r.errorMessage,
               store := r.store }
    | none => { s with processingStatus := PStatus.verifying }
  else
    { s with processingStatus := PStatus.error,
             errorMessage := some "Invalid password. Please try again." }

/-! ## Payload decode (`handleScan`, `QRScanner.tsx` lines 80-122) -/

/-- A JSON value as produced by `JSON.parse`, extended with `undef` for the
result of accessing a missing property (JS `undefined`). Arrays are not
needed by the decode path and are omitted. -/
inductive JValue where
  | null
  | bool (b : Bool)
  | num (n : Int)
  | str (s : String)
  | obj (fields : List (String × JValue))
  | undef
deriving Repr

/-- JS truthiness of a value (NaN aside, which the integer model omits). -/
def truthy : JValue → Bool
  | JValue.null => false
  | JValue.undef => false
  | JValue.bool b => b
  | JValue.num n => n ≠ 0
  | JValue.str s => s ≠ ""
  | JValue.obj _ => true

/-- `typeof v === 'number'`. -/
def isNum : JValue → Bool
  | JValue.num _ => true
  | _ => false

/-- Property access on `null`/`undefined` throws a TypeError in JS. -/
def isNullish : JValue → Bool
  | JValue.null => true
  | JValue.undef => true
  | _ => false

/-- JS property access `v.k` on a non-nullish value: field lookup on an
object, `undefined` otherwise (and for a missing field). -/
def jget (v : JValue) (k : String) : JValue :=
  match v with
  | JValue.obj fields => (fields.lookup k).getD JValue.undef
  | _ => JValue.undef

/-- The distinguishable failure classes of `handleScan`'s decode path:
the three explicitly thrown errors plus the TypeError raised by accessing
a property of a nullish parse result; all are caught by the surrounding
try, so the decode result is a tagged value, never an escaping throw. -/
inductive DecodeErr where
  | notJson
  | typeError
  | missingTxOrKey
  | badStructure
deriving DecidableEq, Repr

/-- The message attached to each failure class (lines 96, 102, 109; the
TypeError message is runtime-generated). -/
def decodeErrMessage : DecodeErr → String
  | DecodeErr.notJson => "Invalid QR data format: not valid JSON"
  | DecodeErr.typeError => "TypeError: cannot read properties of null or undefined"
  | DecodeErr.missingTxOrKey => "Invalid QR data format: missing transaction or publicKey"
  | DecodeErr.badStructure => "Invalid transaction data structure"

/-- The decode path of `handleScan` (lines 86-110) on the outcome of
`JSON.parse` (`none` models a parse throw): reject a nullish parse result
(property access throws), then `!parsedData.transaction ||
!parsedData.publicKey`, then `!id || typeof amount !== 'number' ||
!sender || !recipient`. Note: the amount check is only a typeof check —
no positivity test. On success the payload (transaction object and public
key value) is accepted. -/
def decodeQR (input : Option JValue) : Except DecodeErr (JValue × JValue) :=
  match input with
  | none => Except.error DecodeErr.notJson
  | some pd =>
    if isNullish pd then Except.error DecodeErr.typeError
    else
      let tx := jget pd "transaction"
      let pk := jget pd "publicKey"
      if !truthy tx || !truthy pk then Except.error DecodeErr.missingTxOrKey
      else if !truthy (jget tx "id") || !isNum (jget tx "amount")
          || !truthy (jget tx "sender") || !truthy (jget tx "recipient") then
        Except.error DecodeErr.badStructure
      else Except.ok (tx, pk)

/-- Whether a decode outcome is an acceptance. -/
def decodeOk (r : Except DecodeErr (JValue × JValue)) : Bool :=
  match r with
  | Except.ok _ => true
  | Except.error _ => false

/-! ## Concrete instances used to exercise the model -/

/-- The spec's running example transaction (spec §8), before signing. -/
def txDemo : Transaction :=
  ⟨"t1", 50, "A", "B", 1000, "Transfer", "pending", none⟩

/-- Its signature under the demo private key (`QRGenerator.tsx` line 221). -/
def sigDemo : Sig := signTransaction txDemo "sk_demo"

/-- The signed transaction as embedded in the payload. -/
def txSigned : Transaction := { txDemo with signature := some sigDemo }

/-- The same payload with the amount mutated after signing (spec §8). -/
def txTampered : Transaction := { txSigned with amount := 5000 }

/-- The generated QR payload. -/
def qrDemo : QRData := ⟨txSigned, pubOf "sk_demo"⟩

/-- Collaborator behaviours for one pipeline run. -/
def envOffline : ScanEnv := ⟨true, true, false, SyncBehavior.succeeds⟩

/-- All collaborators succeed, network reachable. -/
def envOnline : ScanEnv := ⟨true, true, true, SyncBehavior.succeeds⟩

/-- Network reachable but the blockchain sync call rejects. -/
def envSyncThrows : ScanEnv := ⟨true, true, true, SyncBehavior.throws⟩

/-- Network reachable, the sync resolves reporting failure. -/
def envSyncFails : ScanEnv := ⟨true, true, true, SyncBehavior.reportsFailure⟩

/-- `updateCredits` throws after `saveTransaction` succeeded. -/
def envCreditsFail : ScanEnv := ⟨true, false, false, SyncBehavior.succeeds⟩

/-- `saveTransaction` itself throws. -/
def envSaveFail : ScanEnv := ⟨false, true, false, SyncBehavior.succeeds⟩

/-- An empty local store. -/
def emptyStore : Store := ⟨[], []⟩

/-- A parsed payload whose transaction amount is the number `0`. -/
def pdZeroAmount : JValue :=
  JValue.obj
    [("transaction",
      JValue.obj
        [("id", JValue.str "t1"), ("amount", JValue.num 0),
         ("sender", JValue.str "A"), ("recipient", JValue.str "B")]),
     ("publicKey", JValue.str "pk_demo")]

/-- A parsed payload whose transaction amount is the number `-5`. -/
def pdNegAmount : JValue :=
  JValue.obj
    [("transaction",
      JValue.obj
        [("id", JValue.str "t1"), ("amount", JValue.num (-5)),
         ("sender", JValue.str "A"), ("recipient", JValue.str "B")]),
     ("publicKey", JValue.str "pk_demo")]

/-- A handler environment whose callbacks all return normally. -/
def okHandlers : Handlers := fun _ _ => Except.ok ()

/-- An empty event-bus world. -/
def emptyWorld : World := ⟨[], [], [], [], []⟩

/-- A `payment_received` event carrying no transaction id. -/
def evNoTid : EventData := ⟨none, 5, "A", "B", 1000⟩

/-- A `payment_received` event carrying the demo transaction id. -/
def evWithTid : EventData := ⟨some "t1", 50, "A", "B", 1000⟩

/-- The world as `QRGenerator` sets it up (lines 112-121): handler `0`
subscribed on the bus and also registered as a `window` and a `document`
listener for `paymentReceived`. -/
def wGen : World :=
  ⟨[("paymentReceived", [0])], [("paymentReceived", [0])],
   [("paymentReceived", [0])], [], []⟩

/-! ## Helper lemmas -/

/-- The per-callback try/catch loop invokes every listed handler, in list
order, with the event, whether or not earlier handlers raised. -/
theorem runHandlers_results (handlers : Handlers) (hs : List HandlerId)
    (ty : String) (data : EventData) :
    (runHandlers handlers hs ty data).1 = hs.map fun h => (h, handlers h data) := by
  induction hs with
  | nil => rfl
  | cons h rest ih =>
    cases hr : handlers h data <;> simp [runHandlers, hr, ih]

/-- Every raising handler, and nothing else, contributes one logged
`console.error` line. -/
theorem runHandlers_log (handlers : Handlers) (hs : List HandlerId)
    (ty : String) (data : EventData) :
    (runHandlers handlers hs ty data).2 =
      (hs.filter fun h => isErr (handlers h data)).map
        fun _ => "Error in event listener for " ++ ty := by
  induction hs with
  | nil => rfl
  | cons h rest ih =>
    cases hr : handlers h data <;> simp [runHandlers, hr, ih, isErr]

/-! ## Claims -/

/-- C1: for every transaction `T` and key pair `(k, pub(k))`,
`verify(T, sign(T, k), pub(k))` is true; for every `T'` differing from `T`
in any signed (canonical) field, `verify(T', sign(T, k), pub(k))` is false;
and `verify` is fails-closed — a total Boolean function returning false on
a malformed signature or a mismatched key. -/
theorem C1_verify_correct (t tP : Transaction) (k : String) (p : PubKey) :
    verifySignature t (signTransaction t k) (pubOf k) = true
    ∧ (canonical tP ≠ canonical t →
        verifySignature tP (signTransaction t k) (pubOf k) = false)
    ∧ (p ≠ pubOf k → verifySignature t (signTransaction t k) p = false)
    ∧ (∀ r : String, verifySignature t (Sig.malformed r) p = false) := by
  refine ⟨?_, ?_, ?_, ?_⟩
  · simp [verifySignature, signTransaction]
  · intro hne
    simp only [verifySignature, signTransaction, decide_eq_false_iff_not]
    intro hc
    exact hne hc.1.symm
  · intro hp
    simp only [verifySignature, signTransaction, decide_eq_false_iff_not]
    intro hc
    exact hp hc.2.symm
  · intro r
    simp [verifySignature]

/-- Witness for C1 at the spec's running example: the signed demo
transaction verifies, the amount-tampered copy does not, a wrong public key
does not, and a malformed signature does not. -/
theorem C1_verify_correct_witness :
    (canonical txTampered ≠ canonical txSigned ∧ PubKey.mk "other" ≠ pubOf "sk_demo")
    ∧ verifySignature txSigned (signTransaction txSigned "sk_demo") (pubOf "sk_demo") = true
    ∧ verifySignature txTampered (signTransaction txSigned "sk_demo") (pubOf "sk_demo") = false
    ∧ verifySignature txSigned (signTransaction txSigned "sk_demo") (PubKey.mk "other") = false
    ∧ verifySignature txSigned (Sig.malformed "") (PubKey.mk "other") = false := by
  have h := C1_verify_correct txSigned txTampered "sk_demo" (PubKey.mk "other")
  exact ⟨⟨by decide, by decide⟩, h.1, h.2.1 (by decide), h.2.2.1 (by decide), h.2.2.2 ""⟩

/-- C8: `publish(kind, event)` invokes every handler currently registered
for that kind synchronously, in registration order, with the event; a
raising handler is isolated — its failure is logged and every remaining
handler still runs — and the publish call returns normally (the invocation
list always covers the whole registration list, independent of which
handlers raised). -/
theorem C8_publish_fanout (handlers : Handlers) (w : World) (ty : String)
    (data : EventData) (now : Nat) :
    (emit handlers w ty data now).2.1 =
      (listenersFor w.registry ty).map (fun h => (h, handlers h data))
      ++ (listenersFor w.winListeners ty).map (fun h => (h, handlers h data))
    ∧ (emit handlers w ty data now).2.2 =
      ((listenersFor w.registry ty).filter fun h => isErr (handlers h data)).map
        fun _ => "Error in event listener for " ++ ty := by
  constructor
  · simp [emit, runHandlers_results]
  · simp [emit, runHandlers_log]

/-- C9 (code evaluated at the failing input): `emit` without a transaction
id at time 1000 writes the record under `payment_event_paymentReceived_1000`
and schedules a removal for time 31000 — but the removal recomputes the
fallback key from the fire-time clock, erases
`payment_event_paymentReceived_31000` instead, and the written record is
still present after the 30-second horizon.  With a transaction id present
the recomputed key coincides and the record is removed. -/
theorem C9_fallback_record_persists :
    (emit okHandlers emptyWorld "paymentReceived" evNoTid 1000).1.pending
      = [⟨31000, "paymentReceived", none⟩]
    ∧ (((emit okHandlers emptyWorld "paymentReceived" evNoTid 1000).1.store.lookup
        "payment_event_paymentReceived_1000").isSome = true)
    ∧ ((runRemoval (emit okHandlers emptyWorld "paymentReceived" evNoTid 1000).1.store
        ⟨31000, "paymentReceived", none⟩).lookup
        "payment_event_paymentReceived_1000").isSome = true
    ∧ ((runRemoval (emit okHandlers emptyWorld "paymentReceived" evWithTid 1000).1.store
        ⟨31000, "paymentReceived", some "t1"⟩).lookup
        "payment_event_paymentReceived_t1") = none := by
  refine ⟨rfl, rfl, rfl, rfl⟩

/-- C10: in the publishing context, `emit` dispatches a `CustomEvent` on
`window` after the registered-handler fan-out (the delivery sequence is the
subscribed handlers followed by the `window` listeners — `document`
listeners are not reached by a `window` dispatch), so a handler registered
both via `subscribe` and as a `window` listener for the kind is invoked
more than once by a single publish. -/
theorem C10_duplicate_delivery (handlers : Handlers) (w : World) (ty : String)
    (data : EventData) (now : Nat) (h : HandlerId)
    (hsub : h ∈ listenersFor w.registry ty)
    (hwin : h ∈ listenersFor w.winListeners ty) :
    ((emit handlers w ty data now).2.1.map Prod.fst)
      = listenersFor w.registry ty ++ listenersFor w.winListeners ty
    ∧ 2 ≤ ((emit handlers w ty data now).2.1.map Prod.fst).count h := by
  have hseq : ((emit handlers w ty data now).2.1.map Prod.fst)
      = listenersFor w.registry ty ++ listenersFor w.winListeners ty := by
    simp only [emit, runHandlers_results, List.map_append, List.map_map]
    simp [Function.comp_def]
  refine ⟨hseq, ?_⟩
  rw [hseq, List.count_append]
  have h1 : 0 < (listenersFor w.registry ty).count h := List.count_pos_iff.mpr hsub
  have h2 : 0 < (listenersFor w.winListeners ty).count h := List.count_pos_iff.mpr hwin
  omega

/-- Witness for C10 at the QRGenerator setup: handler 0 is both subscribed
and a `window` listener for `paymentReceived`, and one emit invokes it
twice. -/
theorem C10_duplicate_delivery_witness :
    (0 : HandlerId) ∈ listenersFor wGen.registry "paymentReceived"
    ∧ (0 : HandlerId) ∈ listenersFor wGen.winListeners "paymentReceived"
    ∧ 2 ≤ ((emit okHandlers wGen "paymentReceived" evWithTid 1000).2.1.map
        Prod.fst).count 0 := by
  have h := C10_duplicate_delivery okHandlers wGen "paymentReceived" evWithTid 1000 0
    (by decide) (by decide)
  exact ⟨by decide, by decide, h.2⟩

set_option maxRecDepth 20000 in
/-- C2 counterexample: arm the demo payload with its 30-second window, let
the countdown run to zero so the supervisor reaches `expired` — and then a
matching `payment_received` event still moves the payload to `completed`,
forcing the expired flag back off (`handlePaymentReceived` checks only the
transaction id, never `isExpired`, and executes `setIsExpired(false)`).
`expired` is therefore not terminal, contrary to the claim. -/
theorem C2_expired_not_terminal :
    (tickN 30 (arm txDemo)).isExpired = true
    ∧ (tickN 30 (arm txDemo)).paymentReceived = false
    ∧ (handlePaymentReceivedG (tickN 30 (arm txDemo)) "t1").paymentReceived = true
    ∧ (handlePaymentReceivedG (tickN 30 (arm txDemo)) "t1").isExpired = false := by
  refine ⟨by decide, by decide, by decide, by decide⟩

/-- C2 amended: `completed` is terminal — once `paymentReceived` is set the
countdown is dead (a tick is a no-op and publishes no `payload_expired`
event), so completion winning the race is permanent; but `expired` is not
terminal: a later `payment_received` event matching the armed payload moves
it from `expired` to `completed` and clears the expired flag. -/
theorem C2_race_amended (s : GenState) (tx : Transaction) :
    (s.paymentReceived = true → tick s = (s, []) ∧ timerLive s = false)
    ∧ (s.qrData = some tx → s.isExpired = true →
        (handlePaymentReceivedG s tx.id).paymentReceived = true
        ∧ (handlePaymentReceivedG s tx.id).isExpired = false) := by
  constructor
  · intro hp
    constructor
    · simp [tick, timerLive, hp]
    · simp [timerLive, hp]
  · intro hq _
    simp [handlePaymentReceivedG, hq]

/-- Witness for C2 amended: in a completed state the tick is a no-op with
no event published, and from an expired armed state the matching event
yields completion. -/
theorem C2_race_amended_witness :
    tick (GenState.mk (some txDemo) 5 false true) = (GenState.mk (some txDemo) 5 false true, [])
    ∧ (handlePaymentReceivedG (GenState.mk (some txDemo) 0 true false) txDemo.id).paymentReceived
        = true := by
  have h1 := C2_race_amended (GenState.mk (some txDemo) 5 false true) txDemo
  have h2 := C2_race_amended (GenState.mk (some txDemo) 0 true false) txDemo
  exact ⟨(h1.1 rfl).1, (h2.2 rfl rfl).1⟩

/-- C3 counterexample: a verified, locally committed demo payload whose
blockchain sync call throws lands in `error` with the generic message —
not in `complete` — even though the local commit (transaction record and
ledger entry) is retained: the `await syncTransactionToBlockchain(...)`
sits inside the same try/catch as the rest of the pipeline. -/
theorem C3_sync_throw_reaches_error :
    (processTransaction envSyncThrows emptyStore qrDemo).status = PStatus.error
    ∧ (processTransaction envSyncThrows emptyStore qrDemo).errorMessage
        = some genericErrorMsg
    ∧ (processTransaction envSyncThrows emptyStore qrDemo).store.transactions
        = [txSigned]
    ∧ (processTransaction envSyncThrows emptyStore qrDemo).store.ledger
        = [⟨"t1", 50⟩] := by
  refine ⟨by decide, by decide, by decide, by decide⟩

/-- C3 amended: after signature verification and local commit, no sync
outcome reverts the commit (the transaction record and ledger entry stay
written); a sync whose promise resolves reporting failure is ignored and
the machine proceeds to `complete`, but a sync call that throws is caught
by the pipeline's catch-all and transitions the machine to `error` with
the generic message rather than proceeding to `complete`. -/
theorem C3_sync_failure_amended (env : ScanEnv) (store : Store) (data : QRData)
    (hv : verifySignature data.transaction
        (data.transaction.signature.getD (Sig.malformed "")) data.publicKey = true)
    (hs : env.saveOk = true) (hc : env.creditsOk = true)
    (ho : env.isOnline = true) :
    (env.sync = SyncBehavior.reportsFailure →
        (processTransaction env store data).status = PStatus.complete)
    ∧ (env.sync = SyncBehavior.throws →
        (processTransaction env store data).status = PStatus.error
        ∧ (processTransaction env store data).errorMessage = some genericErrorMsg)
    ∧ (processTransaction env store data).store.transactions
        = store.transactions ++ [data.transaction]
    ∧ (processTransaction env store data).store.ledger
        = store.ledger ++ [⟨data.transaction.id, data.transaction.amount⟩] := by
  cases hb : env.sync <;>
    simp_all [processTransaction, saveTransactionM, updateCreditsM]

/-- Witness for C3 amended at the demo payload: a reported-failure sync
still completes, while a throwing sync keeps the ledger entry it
committed. -/
theorem C3_sync_failure_amended_witness :
    (processTransaction envSyncFails emptyStore qrDemo).status = PStatus.complete
    ∧ (processTransaction envSyncThrows emptyStore qrDemo).store.ledger
        = emptyStore.ledger ++ [⟨qrDemo.transaction.id, qrDemo.transaction.amount⟩] := by
  have h1 := C3_sync_failure_amended envSyncFails emptyStore qrDemo (by decide) rfl rfl rfl
  have h2 := C3_sync_failure_amended envSyncThrows emptyStore qrDemo (by decide) rfl rfl rfl
  exact ⟨h1.1 rfl, h2.2.2.2⟩

/-- C5 counterexample: when `updateCredits` throws after `saveTransaction`
already persisted the record, the pipeline lands in `error` with the
generic catch-all message — not the claimed reason — and the transaction
record is visible while no ledger entry was written: the commit is not
all-or-nothing. -/
theorem C5_commit_not_atomic :
    (processTransaction envCreditsFail emptyStore qrDemo).status = PStatus.error
    ∧ (processTransaction envCreditsFail emptyStore qrDemo).errorMessage
        = some genericErrorMsg
    ∧ some "local commit failed"
        ≠ (processTransaction envCreditsFail emptyStore qrDemo).errorMessage
    ∧ (processTransaction envCreditsFail emptyStore qrDemo).store.transactions
        = [txSigned]
    ∧ (processTransaction envCreditsFail emptyStore qrDemo).store.ledger = [] := by
  refine ⟨by decide, by decide, by decide, by decide, by decide⟩

/-- C5 amended: any commit failure lands in `error` with the generic
message "An error occurred while processing the transaction." (not "local
commit failed"); a failing `saveTransaction` leaves the store untouched,
but a failing `updateCredits` after a successful `saveTransaction` leaves
the transaction record visible with no ledger entry — the two writes are
sequential, not atomic; the ledger itself gains no entry on failure. -/
theorem C5_commit_amended (env : ScanEnv) (store : Store) (data : QRData)
    (hv : verifySignature data.transaction
        (data.transaction.signature.getD (Sig.malformed "")) data.publicKey = true) :
    (env.saveOk = false →
        (processTransaction env store data).status = PStatus.error
        ∧ (processTransaction env store data).errorMessage = some genericErrorMsg
        ∧ (processTransaction env store data).store = store)
    ∧ (env.saveOk = true → env.creditsOk = false →
        (processTransaction env store data).status = PStatus.error
        ∧ (processTransaction env store data).errorMessage = some genericErrorMsg
        ∧ (processTransaction env store data).store.transactions
            = store.transactions ++ [data.transaction]
        ∧ (processTransaction env store data).store.ledger = store.ledger) := by
  constructor
  · intro hsf
    simp [processTransaction, saveTransactionM, hv, hsf]
  · intro hst hcf
    simp [processTransaction, saveTransactionM, updateCreditsM, hv, hst, hcf]

/-- Witness for C5 amended at the demo payload: a failing record write
leaves the store empty, a failing ledger update keeps the saved record with
an unchanged ledger. -/
theorem C5_commit_amended_witness :
    (processTransaction envSaveFail emptyStore qrDemo).store = emptyStore
    ∧ (processTransaction envCreditsFail emptyStore qrDemo).store.ledger
        = emptyStore.ledger := by
  have h1 := C5_commit_amended envSaveFail emptyStore qrDemo (by decide)
  have h2 := C5_commit_amended envCreditsFail emptyStore qrDemo (by decide)
  exact ⟨(h1.1 rfl).2.2, (h2.2 rfl rfl).2.2.2⟩

/-- C7: for a verified transaction whose local commit succeeds, an
unreachable network at commit time means the blockchain sync collaborator
is never invoked, the pipeline still reaches `complete` without ever
entering `syncing`, and the committed record is the payload's transaction
verbatim — its `status` field (still `pending`) is not rewritten; a
reachable network means the sync is attempted synchronously as part of the
pipeline. -/
theorem C7_network_gated_sync (env : ScanEnv) (store : Store) (data : QRData)
    (hv : verifySignature data.transaction
        (data.transaction.signature.getD (Sig.malformed "")) data.publicKey = true)
    (hs : env.saveOk = true) (hc : env.creditsOk = true) :
    (env.isOnline = false →
        (processTransaction env store data).status = PStatus.complete
        ∧ (processTransaction env store data).syncInvoked = false
        ∧ PStatus.syncing ∉ (processTransaction env store data).trace
        ∧ (processTransaction env store data).store.transactions
            = store.transactions ++ [data.transaction])
    ∧ (env.isOnline = true →
        (processTransaction env store data).syncInvoked = true
        ∧ PStatus.syncing ∈ (processTransaction env store data).trace) := by
  constructor
  · intro hoff
    simp [processTransaction, saveTransactionM, updateCreditsM, hv, hs, hc, hoff]
  · intro hon
    cases hb : env.sync <;>
      simp_all [processTransaction, saveTransactionM, updateCreditsM]

/-- Witness for C7 at the demo payload: offline, the pipeline completes
with the sync never invoked and the pending-status record stored; online,
the sync is invoked. -/
theorem C7_network_gated_sync_witness :
    (processTransaction envOffline emptyStore qrDemo).status = PStatus.complete
    ∧ (processTransaction envOffline emptyStore qrDemo).syncInvoked = false
    ∧ (processTransaction envOnline emptyStore qrDemo).syncInvoked = true := by
  have h1 := C7_network_gated_sync envOffline emptyStore qrDemo (by decide) rfl rfl
  have h2 := C7_network_gated_sync envOnline emptyStore qrDemo (by decide) rfl rfl
  exact ⟨(h1.1 rfl).1, (h1.1 rfl).2.1, (h2.2 rfl).1⟩

/-- C6: for a decoded payload held in the scanner state, submitting a wrong
credential moves the machine to `error` with the invalid-password message
while the decoded payload stays held; submitting the correct credential
`"2239"` against that same state then runs the pipeline on the same payload
— through `verifying` and on to `complete` — with no rescan
(`handlePasswordSubmit` never clears `scannedData`). -/
theorem C6_credential_retry (env : ScanEnv) (s : ScannerState) (d : QRData)
    (hd : s.scannedData = some d) (hp : s.password ≠ "2239")
    (hv : verifySignature d.transaction
        (d.transaction.signature.getD (Sig.malformed "")) d.publicKey = true)
    (hs : env.saveOk = true) (hc : env.creditsOk = true)
    (ho : env.isOnline = false) :
    (handlePasswordSubmit env s).processingStatus = PStatus.error
    ∧ (handlePasswordSubmit env s).errorMessage
        = some "Invalid password. Please try again."
    ∧ (handlePasswordSubmit env s).scannedData = some d
    ∧ (handlePasswordSubmit env
        { handlePasswordSubmit env s with password := "2239" }).processingStatus
        = PStatus.complete
    ∧ PStatus.verifying ∈ (processTransaction env s.store d).trace := by
  have h1 : handlePasswordSubmit env s
      = { s with processingStatus := PStatus.error,
                 errorMessage := some "Invalid password. Please try again." } := by
    simp [handlePasswordSubmit, hp]
  refine ⟨by simp [h1], by simp [h1], by simp [h1, hd], ?_, ?_⟩
  · rw [h1]
    simp [handlePasswordSubmit, hd, processTransaction, saveTransactionM,
      updateCreditsM, hv, hs, hc, ho]
  · simp [processTransaction, saveTransactionM, updateCreditsM, hv, hs, hc, ho]

/-- Witness for C6: the receiver holding the decoded demo payload enters a
wrong password, lands in `error` with the payload still held, then retries
with `"2239"` and reaches `complete` without rescanning. -/
theorem C6_credential_retry_witness :
    (handlePasswordSubmit envOffline
      (ScannerState.mk (some qrDemo) "0000" PStatus.passwordRequired none emptyStore)
      ).processingStatus = PStatus.error
    ∧ (handlePasswordSubmit envOffline
        { handlePasswordSubmit envOffline
            (ScannerState.mk (some qrDemo) "0000" PStatus.passwordRequired none emptyStore)
          with password := "2239" }).processingStatus = PStatus.complete := by
  have h := C6_credential_retry envOffline
    (ScannerState.mk (some qrDemo) "0000" PStatus.passwordRequired none emptyStore)
    qrDemo rfl (by decide) (by decide) rfl rfl rfl
  exact ⟨h.1, h.2.2.2.1⟩

/-- C4 counterexample: a syntactically valid payload whose transaction
amount is the number `0` is accepted by the decode path (the code checks
only `typeof amount !== 'number'`, never positivity), contradicting the
claim that a zero or negative amount is rejected before the credential
step. -/
theorem C4_zero_amount_accepted :
    decodeOk (decodeQR (some pdZeroAmount)) = true
    ∧ jget (jget pdZeroAmount "transaction") "amount" = JValue.num 0 := by
  exact ⟨rfl, rfl⟩

/-- C4 amended: decode returns a tagged result (it is a total function, so
nothing escapes to the downstream consumer) and rejects: a parse failure
(syntax error), a nullish parse result (the property access raises a
TypeError, caught by the same handler), a missing/falsy transaction or
public key (one shared error for both), and a missing identifier,
non-numeric amount, missing sender or missing recipient (one shared
data-structure error); the four failure classes carry pairwise distinct
messages, but the per-field distinctions the claim requires do not exist,
and amount positivity is never checked — any numeric amount, zero or
negative included, passes to the credential step. -/
theorem C4_decode_amended :
    decodeQR none = Except.error DecodeErr.notJson
    ∧ (∀ pd, isNullish pd = true →
        decodeQR (some pd) = Except.error DecodeErr.typeError)
    ∧ (∀ pd, isNullish pd = false →
        (truthy (jget pd "transaction") = false ∨ truthy (jget pd "publicKey") = false) →
        decodeQR (some pd) = Except.error DecodeErr.missingTxOrKey)
    ∧ (∀ pd, isNullish pd = false →
        truthy (jget pd "transaction") = true → truthy (jget pd "publicKey") = true →
        (truthy (jget (jget pd "transaction") "id") = false
          ∨ isNum (jget (jget pd "transaction") "amount") = false
          ∨ truthy (jget (jget pd "transaction") "sender") = false
          ∨ truthy (jget (jget pd "transaction") "recipient") = false) →
        decodeQR (some pd) = Except.error DecodeErr.badStructure)
    ∧ (∀ pd, isNullish pd = false →
        truthy (jget pd "transaction") = true → truthy (jget pd "publicKey") = true →
        truthy (jget (jget pd "transaction") "id") = true →
        isNum (jget (jget pd "transaction") "amount") = true →
        truthy (jget (jget pd "transaction") "sender") = true →
        truthy (jget (jget pd "transaction") "recipient") = true →
        decodeQR (some pd) = Except.ok (jget pd "transaction", jget pd "publicKey"))
    ∧ (∀ e1 e2 : DecodeErr, decodeErrMessage e1 = decodeErrMessage e2 → e1 = e2) := by
  refine ⟨rfl, ?_, ?_, ?_, ?_, ?_⟩
  · intro pd h
    simp [decodeQR, h]
  · intro pd h1 h2
    rcases h2 with h | h <;> simp [decodeQR, h1, h]
  · intro pd h1 h2 h3 h4
    rcases h4 with h | h | h | h <;> simp [decodeQR, h1, h2, h3, h]
  · intro pd h1 h2 h3 h4 h5 h6 h7
    simp [decodeQR, h1, h2, h3, h4, h5, h6, h7]
  · intro e1 e2
    cases e1 <;> cases e2 <;> decide

/-- Witness for C4 amended: the negative-amount payload passes every check
the code performs and is accepted verbatim. -/
theorem C4_decode_amended_witness :
    decodeQR (some pdNegAmount)
      = Except.ok (jget pdNegAmount "transaction", jget pdNegAmount "publicKey") := by
  exact C4_decode_amended.2.2.2.2.1 pdNegAmount rfl rfl rfl rfl rfl rfl rfl

end HackPrix
